import Mathlib

/-!
Verification development for the catamap repository (Python).

We shallowly embed the two core components:
* `catamap/gamedata.py` — the Definition Store and `copy-from` dependency
  resolver (`GameData._load_one_json`, `GameData._resolve_deps`);
* `catamap/parse_overmap.py` — the RLE tile decoder (`OvermapTile.parse`),
  the connectivity-bitmask rotation used by `OvermapTile.resolve_symbols`
  (the `ULINES` table), and the grid projection (`OvermapTile.get_overmap`).

JSON scalar values are modelled by `JVal` (the claims only involve scalar
fields; the resolver copies all values opaquely, so the restriction to
scalars does not change any modelled behaviour).  Python dicts are modelled
as insertion-ordered association lists with unique keys, with lookup,
single-key assignment (`d[k] = v`) and `dict.update` translated directly.
Python `None` that flows as a value is `JVal.jnull`; an absent key is
`Option.none` at the association-list level, and `pyGet` mirrors Python's
`d.get(k)` which conflates the two.
-/

/-- Scalar JSON value, plus `jnull` standing for Python `None`. -/
inductive JVal where
  | jnull : JVal
  | jbool : Bool → JVal
  | jnum : Int → JVal
  | jstr : String → JVal
deriving DecidableEq, Repr

open JVal

/-- Python truthiness of a scalar JSON value (`if x:`). -/
def jTruthy : JVal → Bool
  | jnull => false
  | jbool b => b
  | jnum n => n != 0
  | jstr s => s != ""

/-- First-match lookup in an association list: Python `d.get(k)` / `d[k]`. -/
def lookupD {κ α : Type} [DecidableEq κ] : List (κ × α) → κ → Option α
  | [], _ => none
  | (k1, v) :: rest, k => if k1 = k then some v else lookupD rest k

/-- Python dict assignment `d[k] = v`: replace in place, else append. -/
def dictSet {κ α : Type} [DecidableEq κ] : List (κ × α) → κ → α → List (κ × α)
  | [], k, v => [(k, v)]
  | (k1, v1) :: rest, k, v =>
      if k1 = k then (k, v) :: rest else (k1, v1) :: dictSet rest k v

/-- Python `d.update(other)`: assign every entry of `other` into `d` in order. -/
def dictUpdate {κ α : Type} [DecidableEq κ] (d o : List (κ × α)) : List (κ × α) :=
  o.foldl (fun acc kv => dictSet acc kv.1 kv.2) d

/-- A JSON object (Python dict with string keys), insertion-ordered. -/
abbrev Obj := List (String × JVal)

/-- An id-indexed category store: Python dict keyed by the `id`/`abstract`
value (which may be any JSON value, including `None`). -/
abbrev Store := List (JVal × Obj)

/-- Python `tobj.get(k)`: `None` when the key is absent or holds `null`. -/
def pyGet (o : Obj) (k : String) : JVal :=
  (lookupD o k).getD jnull

/-- Python `tobj.get(k, d)` with an explicit default. -/
def pyGetD (o : Obj) (k : String) (d : JVal) : JVal :=
  (lookupD o k).getD d

/-- Left-biased choice on `Option`, used to state merge results. -/
def orO {α : Type} : Option α → Option α → Option α
  | some v, _ => some v
  | none, b => b

/-! ## Symbol rotation (`parse_overmap.py`)

`ULINES` is the line-drawing glyph table (`parse_overmap.py` lines 37-54):
each entry holds the glyph, its curses name, the 4-bit connectivity bitmask,
and two auxiliary numeric columns.  `rotBits` is the exact rotation
expression from `OvermapTile.resolve_symbols` (line 260), and
`rotGlyphHead` is the lookup `[x for x in ULINES.values() if x[2] == cr_rot][0][0]`
(line 261), with the partial `[0]` modelled by `List.head?`. -/

/-- One entry of the `ULINES` table. -/
structure ULineEntry where
  sym : String
  nsym : String
  bits : Nat
  dcode : Nat
  dclass : Nat
deriving DecidableEq, Repr

/-- The `ULINES` table, in source order. -/
def ULINES : List (String × ULineEntry) :=
  [ ("end_south", ⟨"│", "VLINE", 0b1010, 1, 2⟩),
    ("end_north", ⟨"│", "VLINE", 0b1010, 4, 2⟩),
    ("ns", ⟨"│", "VLINE", 0b1010, 5, 0⟩),
    ("end_west", ⟨"─", "HLINE", 0b0101, 2, 2⟩),
    ("end_east", ⟨"─", "HLINE", 0b0101, 8, 2⟩),
    ("ew", ⟨"─", "HLINE", 0b0101, 10, 0⟩),
    ("ne", ⟨"└", "LLCORNER", 0b1100, 3, 1⟩),
    ("es", ⟨"┌", "ULCORNER", 0b0110, 6, 1⟩),
    ("sw", ⟨"┐", "URCORNER", 0b0011, 12, 1⟩),
    ("wn", ⟨"┘", "LRCORNER", 0b1001, 9, 1⟩),
    ("nes", ⟨"├", "LTEE", 0b1110, 7, 3⟩),
    ("new", ⟨"┴", "BTEE", 0b1101, 11, 3⟩),
    ("nsw", ⟨"┤", "RTEE", 0b1011, 13, 3⟩),
    ("esw", ⟨"┬", "TTEE", 0b0111, 14, 3⟩),
    ("isolated", ⟨"┼", "PLUS", 0b1111, 0, 4⟩),
    ("nesw", ⟨"┼", "PLUS", 0b1111, 15, 4⟩) ]

/-- `uline_syms = {x[0]: x[2] for x in ULINES.values()}` — glyph → bitmask,
built by dict comprehension (later entries overwrite earlier ones). -/
def ulineSyms : List (String × Nat) :=
  (ULINES.map Prod.snd).foldl (fun acc e => dictSet acc e.sym e.bits) []

/-- The rotation expression from `resolve_symbols` (line 260):
`(cr_bits << rot_dist & 0b01111) | (((cr_bits << rot_dist) & 0b011110000) >> 4)`. -/
def rotBits (bits dist : Nat) : Nat :=
  ((bits <<< dist) &&& 0b01111) ||| (((bits <<< dist) &&& 0b011110000) >>> 4)

/-- The glyph lookup of line 261: first `ULINES` entry whose bitmask equals
the rotated value. -/
def rotGlyphHead (r : Nat) : Option String :=
  (((ULINES.map Prod.snd).filter (fun x => x.bits == r)).head?).map (fun x => x.sym)

/-- URDIST: rotation distance from north (north=0, west=1, south=2, east=3). -/
def URDIST : List (String × Nat) :=
  [("north", 0), ("west", 1), ("south", 2), ("east", 3)]

/-- C3: the 4-bit connectivity rotation is a circular left rotation: rotating
any `ULINES` bitmask by 0 yields the original bitmask and glyph; rotating by 4
equals rotating by 0; the north-south mask `0b1010` rotated by 1 gives the
east-west mask `0b0101` and its glyph `─`, and one further rotation by 1
returns the original north-south mask and glyph `│`. -/
theorem rotation_rotBits_period_and_ns_ew :
    (ULINES.all (fun e =>
        rotBits e.2.bits 0 == e.2.bits
        && rotBits e.2.bits 4 == rotBits e.2.bits 0
        && rotGlyphHead (rotBits e.2.bits 0) == some e.2.sym) = true)
    ∧ rotBits 0b1010 1 = 0b0101
    ∧ rotGlyphHead (rotBits 0b1010 1) = some "─"
    ∧ rotBits (rotBits 0b1010 1) 1 = 0b1010
    ∧ rotGlyphHead (rotBits (rotBits 0b1010 1) 1) = some "│"
    ∧ rotGlyphHead 0b1010 = some "│" := by
  refine ⟨by decide, by decide, by decide, by decide, by decide, by decide⟩

/-- C10: the set of `ULINES` connectivity bitmasks is closed under rotation
by every distance in {0,1,2,3}: the rotated mask always matches at least one
table entry, so the resolver's filtered lookup is never empty and step 4 of
symbol resolution is total. -/
theorem rotation_ulines_closed_under_rotBits :
    ULINES.all (fun e => ([0, 1, 2, 3] : List Nat).all (fun d =>
        ULINES.any (fun e2 => e2.2.bits == rotBits e.2.bits d)
        && (rotGlyphHead (rotBits e.2.bits d)).isSome)) = true := by
  decide

/-! ## Definition Store loading (`GameData._load_one_json`, lines 94-122)

We model the per-object insertion into an id-indexed (dict-shaped) category.
The three `C_TYPEMAP` categories (`mapgen`, `monstergroup`, `snippet`) use
append-only lists and are skipped by the resolver; no claim touches them, so
the model covers the dict path, which is the one every claim is about. -/

/-- The game data: category type value → id-indexed store. -/
abbrev GData := List (JVal × Store)

/-- Result of inserting one JSON object (`_load_one_json` loop body). -/
structure InsertResult where
  data : GData
  typeWarned : Bool
  idWarned : Bool
  collisionWarned : Bool
deriving DecidableEq, Repr

/-- One iteration of the `for tobj in jdata` loop of `_load_one_json`:
tag the object with `__loaded_from`, create the category store on first
use, compute `tid` (`id` if truthy, else `abstract`), emit the collision
warning if `self._data[ttype].get(ttype)` is truthy (note: the key tested
is the category type value, exactly as in the source), then assign
`self._data[ttype][tid] = tobj`. -/
def loadInsert (data : GData) (fpath : String) (tobj : Obj) : InsertResult :=
  let ttype := pyGet tobj "type"
  let typeWarned := !(jTruthy ttype)
  let tobj1 := dictSet tobj "__loaded_from" (jstr fpath)
  let data1 := match lookupD data ttype with
    | none => dictSet data ttype ([] : Store)
    | some _ => data
  let store := (lookupD data1 ttype).getD []
  let tid := if jTruthy (pyGet tobj1 "id") then pyGet tobj1 "id" else pyGet tobj1 "abstract"
  let idWarned := tid = jnull
  let collisionWarned := match lookupD store ttype with
    | some o => !o.isEmpty
    | none => false
  { data := dictSet data1 ttype (dictSet store tid tobj1),
    typeWarned := typeWarned,
    idWarned := idWarned,
    collisionWarned := collisionWarned }

/-- `_load_one_json` on a successfully parsed file: insert every object of
the (already list-repacked) JSON payload in order. -/
def loadOneJson (data : GData) (fpath : String) (objs : List Obj) : GData :=
  objs.foldl (fun acc tobj => (loadInsert acc fpath tobj).data) data

/-! ## Dependency resolution (`GameData._resolve_deps`, lines 124-181) -/

/-- The `for i in range(16)` chain-walking loop (lines 157-169), starting
from the already-collected first dependency `tdep`: while `tdep` has a
truthy `copy-from`, look the next ancestor up; a missing ancestor logs an
error and breaks (`Bool` result: error logged).  Returns the ancestors
appended after `tdep`, nearest first. -/
def collectDeps : Nat → Store → Obj → List Obj × Bool
  | 0, _, _ => ([], false)
  | Nat.succ n, store, tdep =>
      if jTruthy (pyGet tdep "copy-from") then
        match lookupD store (pyGet tdep "copy-from") with
        | none => ([], true)
        | some nextdep =>
            let r := collectDeps n store nextdep
            (nextdep :: r.1, r.2)
      else ([], false)

/-- Lines 147-177 for one item: if `titem` has a truthy `copy-from`, look up
the first ancestor (a miss logs an error and leaves the item unresolved),
walk up to 16 further ancestors, then merge `newobj = {}`, updating with the
collected dependencies furthest-first and with `titem` last.  Returns the
merged object (`none` when the item is left untouched) and whether a
missing-dependency error was logged. -/
def resolveOne (store : Store) (titem : Obj) : Option Obj × Bool :=
  if jTruthy (pyGet titem "copy-from") then
    match lookupD store (pyGet titem "copy-from") with
    | none => (none, true)
    | some tdep =>
        let walk := collectDeps 16 store tdep
        let deps := tdep :: walk.1
        let newobj := dictUpdate (deps.reverse.foldl dictUpdate []) titem
        (some newobj, walk.2)
  else (none, false)

/-- The pass filter (lines 141-144): pass 1 skips items whose `abstract` is
`None`; pass 2 skips items whose `abstract` is not `None`. -/
def skipItem (rpass : Nat) (titem : Obj) : Bool :=
  (rpass == 1 && pyGet titem "abstract" == jnull)
  || (rpass == 2 && pyGet titem "abstract" != jnull)

/-- One iteration of the `for tid in self._data[ttype]` loop: fetch the item
from the current store, apply the pass filter, resolve, and store the merged
record back under `tid`. -/
def resolvePassStep (rpass : Nat) (acc : Store) (tid : JVal) : Store :=
  match lookupD acc tid with
  | none => acc
  | some titem =>
      if skipItem rpass titem then acc
      else
        match (resolveOne acc titem).1 with
        | none => acc
        | some newobj => dictSet acc tid newobj

/-- One resolution pass over one category: iterate the store's keys in
insertion order, mutating the store as the source does. -/
def resolvePass (rpass : Nat) (cat : Store) : Store :=
  (cat.map Prod.fst).foldl (resolvePassStep rpass) cat

/-- The `C_TYPEMAP` categories whose storage is an append-only list; the
resolver skips them (lines 135-137). -/
def cTypemapListTypes : List JVal :=
  [jstr "mapgen", jstr "monstergroup", jstr "snippet"]

/-- One resolution pass over the whole data dict, skipping list categories. -/
def resolvePassData (rpass : Nat) (data : GData) : GData :=
  (data.map Prod.fst).foldl (fun acc ttype =>
    if ttype ∈ cTypemapListTypes then acc
    else
      match lookupD acc ttype with
      | none => acc
      | some cat => dictSet acc ttype (resolvePass rpass cat)) data

/-- `_resolve_deps()`: pass 1 (abstract items) then pass 2 (the rest); the
source returns `True` unconditionally, which we carry as the second
component. -/
def resolveDeps (data : GData) : GData × Bool :=
  (resolvePassData 2 (resolvePassData 1 data), true)

/-! ## Raw tile decoder (`OvermapTile.parse`, lines 149-170) -/

/-- Overmap tile side length (`OMT_SZ = 180`). -/
def OMT_SZ : Nat := 180

/-- One decoded map cell (`SubmapTile.__init__`, lines 321-326; the class
attributes `overmap_terrain` and `osym` start out as `None`). -/
structure SubmapTile where
  x : Nat
  y : Nat
  z : Int
  omtype : String
  overmap_terrain : Option Obj := none
  osym : Option String := none
deriving DecidableEq, Repr

/-- `itoxy`: tile index to `(x, y)` (line 170; the float division
`int(idex / OMT_SZ)` is exact truncation for all indices in range). -/
def itoxy (idex : Nat) : Nat × Nat :=
  (idex % OMT_SZ, idex / OMT_SZ)

/-- `xytoi`: `(x, y)` to tile index (line 176). -/
def xytoi (x y : Nat) : Nat :=
  y * OMT_SZ + x

/-- The inner decode loop of `parse` (lines 157-164) for one layer, starting
at linear index `idex`: each `(ttype, tlen)` pair emits `tlen` consecutive
cells, advancing the index.  The result lists the entries of the
`self.tiles[tz]` dict in insertion order. -/
def decodeAux (tz : Int) : Nat → List (String × Nat) → List (Nat × SubmapTile)
  | _, [] => []
  | idex, (ttype, tlen) :: rest =>
      ((List.range tlen).map (fun tdex =>
        (idex + tdex,
          ({ x := (itoxy (idex + tdex)).1, y := (itoxy (idex + tdex)).2,
             z := tz, omtype := ttype } : SubmapTile))))
      ++ decodeAux tz (idex + tlen) rest

/-- Decode one layer from index 0, as `parse` does per Z-level. -/
def decodeLayer (tz : Int) (tlayer : List (String × Nat)) : List (Nat × SubmapTile) :=
  decodeAux tz 0 tlayer

/-- Total run length of a layer. -/
def sumLens (tlayer : List (String × Nat)) : Nat :=
  (tlayer.map Prod.snd).sum

/-- The type string of the run covering linear index `i` (statement-side
characterization of run-length decoding, used to state C5). -/
def runAt : List (String × Nat) → Nat → String
  | [], _ => ""
  | (ttype, tlen) :: rest, i => if i < tlen then ttype else runAt rest (i - tlen)

/-! ## Grid projection (`OvermapTile.get_overmap`, lines 265-294) -/

/-- The per-Z-level cell dictionaries (`self.tiles`). -/
abbrev TileMap := List (Int × List (Nat × SubmapTile))

/-- `get_tile` (lines 178-186): `self.tiles[z][self.xytoi(x, y)]`, `None`
on a `KeyError` at either level. -/
def getTile (tiles : TileMap) (x y : Nat) (z : Int) : Option SubmapTile :=
  (lookupD tiles z).bind (fun layer => lookupD layer (xytoi x y))

/-- An output tuple `(symbol, color, name, id)`; Python `None` components
are `jnull`. -/
abbrev OutTup := JVal × JVal × JVal × JVal

/-- `('#', 'gray', 'Unexplored', None)` — no raw cell at the coordinate. -/
def unexploredTup : OutTup := (jstr "#", jstr "gray", jstr "Unexplored", jnull)

/-- `('!', 'gray', 'Unknown', None)` — raw cell with no attached Definition. -/
def unknownBangTup : OutTup := (jstr "!", jstr "gray", jstr "Unknown", jnull)

/-- `('?', 'gray', 'Unknown', None)` — the placeholder appended when the
effective symbol is `None`. -/
def unknownQTup : OutTup := (jstr "?", jstr "gray", jstr "Unknown", jnull)

/-- The body of the `for x in range(OMT_SZ)` loop of `get_overmap`
(lines 275-292): the tuples appended to the current row for one coordinate,
plus whether a warning was logged.  When the tile has a Definition, the
effective symbol is `osym` if set, else `omter.get('sym', '?')`; the tuple
is appended, and if the symbol is `None` the `'?'` placeholder is appended
as well (the source `append`s it in addition, it does not replace).  The
`except` arm of the source is unreachable in this model, every modelled
operation being total. -/
def emitCell (tiles : TileMap) (x y : Nat) (z : Int) : List OutTup × Bool :=
  match getTile tiles x y z with
  | none => ([unexploredTup], false)
  | some ttile =>
      match ttile.overmap_terrain with
      | none => ([unknownBangTup], true)
      | some omter =>
          let sym := match ttile.osym with
            | some s => jstr s
            | none => pyGetD omter "sym" (jstr "?")
          let base : OutTup := (sym, pyGet omter "color", pyGet omter "name", pyGet omter "id")
          if sym = jnull then ([base, unknownQTup], true) else ([base], false)

/-- One row of `get_overmap` output: the concatenation of the tuples emitted
for `x = 0 .. OMT_SZ - 1`. -/
def overmapRow (tiles : TileMap) (y : Nat) (z : Int) : List OutTup :=
  (List.range OMT_SZ).flatMap (fun x => (emitCell tiles x y z).1)

/-- `get_overmap`: the full `[y][x]` array. -/
def getOvermap (tiles : TileMap) (z : Int) : List (List OutTup) :=
  (List.range OMT_SZ).map (fun y => overmapRow tiles y z)

/-! ## Dictionary lemmas -/

theorem lookupD_dictSet {κ α : Type} [DecidableEq κ] (d : List (κ × α)) (k k1 : κ) (v : α) :
    lookupD (dictSet d k v) k1 = if k = k1 then some v else lookupD d k1 := by
  induction d with
  | nil => simp [dictSet, lookupD]
  | cons kv rest ih =>
      obtain ⟨k0, v0⟩ := kv
      by_cases h0 : k0 = k
      · subst h0
        by_cases h1 : k0 = k1 <;> simp [dictSet, lookupD, h1]
      · by_cases h1 : k0 = k1
        · subst h1
          have : ¬ k = k0 := fun h => h0 h.symm
          simp [dictSet, lookupD, h0, this]
        · simp [dictSet, lookupD, h0, h1, ih]

theorem lookupD_eq_none_of_not_mem {κ α : Type} [DecidableEq κ]
    (d : List (κ × α)) (k : κ) (h : k ∉ d.map Prod.fst) :
    lookupD d k = none := by
  induction d with
  | nil => rfl
  | cons kv rest ih =>
      simp only [List.map_cons, List.mem_cons] at h
      push_neg at h
      have : ¬ kv.1 = k := fun he => h.1 he.symm
      obtain ⟨k0, v0⟩ := kv
      simpa [lookupD, this] using ih h.2

theorem lookupD_dictUpdate {κ α : Type} [DecidableEq κ] (d o : List (κ × α)) (k : κ)
    (h : (o.map Prod.fst).Nodup) :
    lookupD (dictUpdate d o) k = orO (lookupD o k) (lookupD d k) := by
  induction o generalizing d with
  | nil => simp [dictUpdate, lookupD, orO]
  | cons kv rest ih =>
      obtain ⟨k0, v0⟩ := kv
      simp only [List.map_cons, List.nodup_cons] at h
      have step : dictUpdate d ((k0, v0) :: rest) = dictUpdate (dictSet d k0 v0) rest := rfl
      rw [step, ih _ h.2]
      by_cases hk : k0 = k
      · subst hk
        rw [lookupD_eq_none_of_not_mem rest k0 h.1]
        simp [lookupD, orO, lookupD_dictSet]
      · simp [lookupD, hk, orO, lookupD_dictSet]

theorem orO_none_right {α : Type} (a : Option α) : orO a none = a := by
  cases a <;> rfl

/-! ## Chain-walk lemmas -/

theorem collectDeps_succ (n : Nat) (store : Store) (tdep : Obj) :
    collectDeps (n + 1) store tdep =
      (if jTruthy (pyGet tdep "copy-from") then
        match lookupD store (pyGet tdep "copy-from") with
        | none => ([], true)
        | some nextdep =>
            let r := collectDeps n store nextdep
            (nextdep :: r.1, r.2)
      else ([], false)) := rfl

theorem collectDeps_length_le (n : Nat) (store : Store) (tdep : Obj) :
    ((collectDeps n store tdep).1).length ≤ n := by
  induction n generalizing tdep with
  | zero => simp [collectDeps]
  | succ m ih =>
      rw [collectDeps_succ]
      by_cases h : jTruthy (pyGet tdep "copy-from") = true
      · simp only [h, if_pos]
        cases hl : lookupD store (pyGet tdep "copy-from") with
        | none => simp
        | some nextdep => simpa using Nat.succ_le_succ (ih nextdep)
      · simp only [Bool.not_eq_true] at h
        simp [h]

/-! ## Decoder lemmas -/

theorem sumLens_cons (t : String) (n : Nat) (rest : List (String × Nat)) :
    sumLens ((t, n) :: rest) = n + sumLens rest := by
  simp [sumLens]

theorem decodeAux_eq_range' (tz : Int) (tlayer : List (String × Nat)) (idex : Nat) :
    decodeAux tz idex tlayer =
      (List.range' idex (sumLens tlayer)).map (fun i =>
        (i, ({ x := (itoxy i).1, y := (itoxy i).2, z := tz,
               omtype := runAt tlayer (i - idex) } : SubmapTile))) := by
  induction tlayer generalizing idex with
  | nil => simp [decodeAux, sumLens]
  | cons hd rest ih =>
      obtain ⟨ttype, tlen⟩ := hd
      rw [decodeAux, ih (idex + tlen), sumLens_cons, Nat.add_comm tlen (sumLens rest),
        ← List.range'_append_1 idex tlen (sumLens rest), List.map_append]
      congr 1
      · rw [List.range'_eq_map_range, List.map_map]
        apply List.map_congr_left
        intro a ha
        have halt : a < tlen := List.mem_range.mp ha
        have hsub : idex + a - idex = a := by omega
        simp only [Function.comp]
        rw [hsub, runAt, if_pos halt]
      · apply List.map_congr_left
        intro a ha
        have hge : idex + tlen ≤ a ∧ a < idex + tlen + sumLens rest := List.mem_range'_1.mp ha
        have hnot : ¬ (a - idex < tlen) := by omega
        have hsub : a - idex - tlen = a - (idex + tlen) := by omega
        rw [runAt, if_neg hnot, hsub]

/-- C5: for a layer whose run lengths sum to the tile cell count
`OMT_SZ * OMT_SZ`, the decoder emits exactly one cell per linear index
`0 .. OMT_SZ*OMT_SZ - 1`, in order, with no gaps or overlaps, each cell
carrying the type string of the run covering its index, at coordinates
`itoxy i`; and `itoxy` maps `i` to `(i mod 180, i div 180)`. -/
theorem decoder_rle_complete (tz : Int) (tlayer : List (String × Nat))
    (h : sumLens tlayer = OMT_SZ * OMT_SZ) :
    decodeLayer tz tlayer =
      (List.range (OMT_SZ * OMT_SZ)).map (fun i =>
        (i, ({ x := (itoxy i).1, y := (itoxy i).2, z := tz,
               omtype := runAt tlayer i } : SubmapTile)))
    ∧ itoxy = fun i => (i % OMT_SZ, i / OMT_SZ) := by
  constructor
  · rw [decodeLayer, decodeAux_eq_range', h, List.range_eq_range']
    apply List.map_congr_left
    intro a _
    simp
  · rfl

/-- C5 witness: a one-run layer covering the whole tile satisfies the
hypothesis, and the decoder characterization applies to it. -/
theorem decoder_rle_complete_witness :
    sumLens [("field", 32400)] = OMT_SZ * OMT_SZ
    ∧ (decodeLayer 0 [("field", 32400)] =
        (List.range (OMT_SZ * OMT_SZ)).map (fun i =>
          (i, ({ x := (itoxy i).1, y := (itoxy i).2, z := 0,
                 omtype := runAt [("field", 32400)] i } : SubmapTile)))
      ∧ itoxy = fun i => (i % OMT_SZ, i / OMT_SZ)) :=
  ⟨by decide, decoder_rle_complete 0 [("field", 32400)] (by decide)⟩

/-! ## Claim theorems: dependency resolver -/

/-- C1: for a `copy-from` chain grandparent → parent → child that resolves
entirely within its category, the merged child record maps every field to
the value of the chain member closest to the child that defines it:
child over parent over grandparent, the union of the three field sets when
disjoint (merge applies the furthest ancestor first, the nearest later, and
the child's own fields last). -/
theorem resolver_three_level_merge
    (store : Store) (child parent grandparent : Obj) (pid gid : String)
    (hpid : pid ≠ "") (hgid : gid ≠ "")
    (hccf : lookupD child "copy-from" = some (jstr pid))
    (hsp : lookupD store (jstr pid) = some parent)
    (hpcf : lookupD parent "copy-from" = some (jstr gid))
    (hsg : lookupD store (jstr gid) = some grandparent)
    (hgcf : jTruthy (pyGet grandparent "copy-from") = false)
    (hnc : (child.map Prod.fst).Nodup)
    (hnp : (parent.map Prod.fst).Nodup)
    (hng : (grandparent.map Prod.fst).Nodup) :
    (resolveOne store child).2 = false
    ∧ ∀ k, Option.map (fun m => lookupD m k) (resolveOne store child).1 =
        some (orO (lookupD child k) (orO (lookupD parent k) (lookupD grandparent k))) := by
  have hc : pyGet child "copy-from" = jstr pid := by simp [pyGet, hccf]
  have hp : pyGet parent "copy-from" = jstr gid := by simp [pyGet, hpcf]
  have h15 : collectDeps 15 store grandparent = ([], false) := by
    rw [show (15 : Nat) = 14 + 1 from rfl, collectDeps_succ, hgcf]
    simp
  have h16 : collectDeps 16 store parent = ([grandparent], false) := by
    rw [show (16 : Nat) = 15 + 1 from rfl, collectDeps_succ, hp]
    simp [jTruthy, hgid, hsg, h15]
  have hres : resolveOne store child
      = (some (dictUpdate (dictUpdate (dictUpdate [] grandparent) parent) child), false) := by
    unfold resolveOne
    rw [hc]
    simp only [jTruthy, bne_iff_ne, ne_eq, hpid, not_false_eq_true, if_true, hsp, h16]
    rfl
  refine ⟨by rw [hres], fun k => ?_⟩
  have hlook : lookupD (dictUpdate (dictUpdate (dictUpdate [] grandparent) parent) child) k
      = orO (lookupD child k) (orO (lookupD parent k) (lookupD grandparent k)) := by
    rw [lookupD_dictUpdate _ _ _ hnc, lookupD_dictUpdate _ _ _ hnp, lookupD_dictUpdate _ _ _ hng]
    simp [lookupD, orO_none_right]
  rw [hres]
  exact congrArg some hlook

/-- A concrete grandparent definition. -/
def c1Grand : Obj := [("id", jstr "G"), ("color", jstr "red"), ("size", jnum 1)]

/-- A concrete parent inheriting from the grandparent. -/
def c1Par : Obj := [("id", jstr "P"), ("copy-from", jstr "G"), ("color", jstr "blue"), ("name", jstr "Mid")]

/-- A concrete child inheriting from the parent. -/
def c1Child : Obj := [("id", jstr "C"), ("copy-from", jstr "P"), ("name", jstr "Cave")]

/-- A category store holding the three-level chain. -/
def c1Store : Store := [(jstr "G", c1Grand), (jstr "P", c1Par), (jstr "C", c1Child)]

/-- C1 witness: on the concrete chain, the child's `name` wins, the parent's
`color` wins over the grandparent's, and the grandparent-only `size` is
inherited. -/
theorem resolver_three_level_merge_witness :
    (resolveOne c1Store c1Child).2 = false
    ∧ Option.map (fun m => lookupD m "name") (resolveOne c1Store c1Child).1 = some (some (jstr "Cave"))
    ∧ Option.map (fun m => lookupD m "color") (resolveOne c1Store c1Child).1 = some (some (jstr "blue"))
    ∧ Option.map (fun m => lookupD m "size") (resolveOne c1Store c1Child).1 = some (some (jnum 1)) := by
  have h := resolver_three_level_merge c1Store c1Child c1Par c1Grand "P" "G"
    (by decide) (by decide) (by decide) (by decide) (by decide) (by decide) (by decide)
    (by decide) (by decide) (by decide)
  exact ⟨h.1, Eq.trans (h.2 "name") (by decide), Eq.trans (h.2 "color") (by decide),
    Eq.trans (h.2 "size") (by decide)⟩

/-- C6: a `copy-from` naming a nonexistent id leaves the definition with only
its own fields and logs an error while the pass leaves the store unchanged;
a missing id deeper in the chain stops the walk there and the ancestors
collected before the break are still merged (partial merge); `_resolve_deps`
still reports success. -/
theorem resolver_missing_dep_recovery
    (store : Store) (titem pdef : Obj) (did qid : String) (tid : JVal) (rpass : Nat) :
    ((did ≠ "") → pyGet titem "copy-from" = jstr did → lookupD store (jstr did) = none →
      resolveOne store titem = (none, true)
      ∧ (lookupD store tid = some titem → resolvePassStep rpass store tid = store))
    ∧ ((did ≠ "") → (qid ≠ "") → pyGet titem "copy-from" = jstr did →
        lookupD store (jstr did) = some pdef → pyGet pdef "copy-from" = jstr qid →
        lookupD store (jstr qid) = none →
        resolveOne store titem = (some (dictUpdate (dictUpdate [] pdef) titem), true))
    ∧ (∀ data : GData, (resolveDeps data).2 = true) := by
  refine ⟨fun hd hcf hmiss => ?_, fun hd hq hcf hfound hpcf hqmiss => ?_, fun _ => rfl⟩
  · have hro : resolveOne store titem = (none, true) := by
      unfold resolveOne
      rw [hcf]
      simp only [jTruthy, bne_iff_ne, ne_eq, hd, not_false_eq_true, if_true, hmiss]
    refine ⟨hro, fun hti => ?_⟩
    unfold resolvePassStep
    rw [hti]
    by_cases hs : skipItem rpass titem = true
    · simp [hs]
    · simp only [Bool.not_eq_true] at hs
      simp [hs, hro]
  · have h16 : collectDeps 16 store pdef = ([], true) := by
      rw [show (16 : Nat) = 15 + 1 from rfl, collectDeps_succ, hpcf]
      simp [jTruthy, hq, hqmiss]
    unfold resolveOne
    rw [hcf]
    simp only [jTruthy, bne_iff_ne, ne_eq, hd, not_false_eq_true, if_true, hfound, h16]
    rfl

/-- Store for the C6 witness: `B` inherits from the missing `Zed`; `C`
inherits from `B`, so its chain breaks one hop up. -/
def c6Store : Store :=
  [ (jstr "B", [("id", jstr "B"), ("copy-from", jstr "Zed"), ("fb", jstr "vb")]),
    (jstr "C", [("id", jstr "C"), ("copy-from", jstr "B"), ("fc", jstr "vc")]) ]

/-- C6 witness: the dangling direct reference leaves `B` untouched with an
error; the chain that breaks deeper still merges the found ancestor into
`C`; resolution reports success. -/
theorem resolver_missing_dep_recovery_witness :
    (resolveOne c6Store [("id", jstr "B"), ("copy-from", jstr "Zed"), ("fb", jstr "vb")]
        = (none, true)
      ∧ resolvePassStep 2 c6Store (jstr "B") = c6Store)
    ∧ resolveOne c6Store [("id", jstr "C"), ("copy-from", jstr "B"), ("fc", jstr "vc")]
        = (some (dictUpdate (dictUpdate [] [("id", jstr "B"), ("copy-from", jstr "Zed"), ("fb", jstr "vb")])
            [("id", jstr "C"), ("copy-from", jstr "B"), ("fc", jstr "vc")]), true)
    ∧ (resolveDeps [(jstr "overmap_terrain", c6Store)]).2 = true := by
  have h := resolver_missing_dep_recovery c6Store
    [("id", jstr "B"), ("copy-from", jstr "Zed"), ("fb", jstr "vb")]
    [("id", jstr "B"), ("copy-from", jstr "Zed"), ("fb", jstr "vb")]
    "Zed" "Zed" (jstr "B") 2
  have h2 := resolver_missing_dep_recovery c6Store
    [("id", jstr "C"), ("copy-from", jstr "B"), ("fc", jstr "vc")]
    [("id", jstr "B"), ("copy-from", jstr "Zed"), ("fb", jstr "vb")]
    "B" "Zed" (jstr "C") 2
  have ha := h.1 (by decide) (by decide) (by decide)
  refine ⟨⟨ha.1, ha.2 (by decide)⟩, ?_, h.2.2 [(jstr "overmap_terrain", c6Store)]⟩
  exact h2.2.1 (by decide) (by decide) (by decide) (by decide) (by decide) (by decide)

/-- One link of a deep `copy-from` chain: `a(i)` inherits from `a(i+1)` and
defines the private field `f(i)`. -/
def chainLink (i : Nat) : JVal × Obj :=
  (jstr ("a" ++ toString i),
   [ ("id", jstr ("a" ++ toString i)),
     ("copy-from", jstr ("a" ++ toString (i + 1))),
     ("f" ++ toString i, jstr ("v" ++ toString i)) ])

/-- A store with the chain `a1 → a2 → ... → a17 → a18`, where `a18` is the
terminal ancestor carrying only `f18`. -/
def deepStore : Store :=
  ((List.range 17).map (fun j => chainLink (j + 1)))
  ++ [ (jstr "a18", [("id", jstr "a18"), ("f18", jstr "v18")]) ]

/-- A child whose chain through `deepStore` is 18 hops deep. -/
def deepChild : Obj := [("id", jstr "c"), ("copy-from", jstr "a1")]

/-- A two-element `copy-from` cycle `A → B → A`. -/
def cycStore : Store :=
  [ (jstr "A", [("id", jstr "A"), ("copy-from", jstr "B"), ("fa", jstr "va")]),
    (jstr "B", [("id", jstr "B"), ("copy-from", jstr "A"), ("fb", jstr "vb")]) ]

/-- A child entering the cycle at `A`. -/
def cycChild : Obj := [("id", jstr "c"), ("copy-from", jstr "A")]

/-- C2 counterexample: on an 18-hop chain the hop-17 ancestor `a17` — an
ancestor beyond hop 16, whose field `f17` occurs at no other level — still
contributes its field to the flattened result, so the claimed 16-hop cut-off
is wrong. -/
theorem resolver_hop17_ancestor_applied :
    Option.map (fun m => lookupD m "f17") (resolveOne deepStore deepChild).1
      = some (some (jstr "v17")) := by
  decide

/-- C2 amended: resolution always terminates, the walk collects at most
`fuel` ancestors past the first (so at most 17 in total with `fuel = 16`);
on the 18-hop chain the hop-17 field is applied but the hop-18 field is
silently dropped with no error; on a cyclic chain resolution terminates
with the cycle's fields merged and no error. -/
theorem resolver_cap_is_17_hops :
    (∀ (n : Nat) (store : Store) (tdep : Obj), ((collectDeps n store tdep).1).length ≤ n)
    ∧ Option.map (fun m => lookupD m "f17") (resolveOne deepStore deepChild).1
        = some (some (jstr "v17"))
    ∧ Option.map (fun m => lookupD m "f18") (resolveOne deepStore deepChild).1 = some none
    ∧ (resolveOne deepStore deepChild).2 = false
    ∧ Option.map (fun m => (lookupD m "fa", lookupD m "fb")) (resolveOne cycStore cycChild).1
        = some (some (jstr "va"), some (jstr "vb"))
    ∧ (resolveOne cycStore cycChild).2 = false :=
  ⟨fun n store tdep => collectDeps_length_le n store tdep,
   by decide, by decide, by decide, by decide, by decide⟩

/-! ## Claim theorems: loader -/

/-- The store already holding a definition under id `x`. -/
def c4Store : Store := [(jstr "x", [("type", jstr "T"), ("id", jstr "x"), ("name", jstr "A")])]

/-- Game data with one category `T` holding `c4Store`. -/
def c4Data : GData := [(jstr "T", c4Store)]

/-- A later object with the same id `x`, loaded into category `T`. -/
def c4Obj : Obj := [("type", jstr "T"), ("id", jstr "x"), ("name", jstr "B")]

/-- C4: re-inserting under an id that is already present does replace the
earlier definition (last-load-wins), but the collision warning does not
fire, because the source tests `self._data[ttype].get(ttype)` — the
category's type marker — instead of the id being inserted. -/
theorem loader_collision_checks_type_not_id :
    lookupD c4Store (jstr "x") ≠ none
    ∧ (loadInsert c4Data "fileB" c4Obj).collisionWarned = false
    ∧ lookupD ((lookupD (loadInsert c4Data "fileB" c4Obj).data (jstr "T")).getD []) (jstr "x")
        = some (dictSet c4Obj "__loaded_from" (jstr "fileB")) := by
  refine ⟨by decide, by decide, by decide⟩

/-! ## Claim theorems: end to end -/

/-- File A's single object: the abstract base `B1` with `color = red`. -/
def c9B1 : Obj := [("type", jstr "overmap_terrain"), ("abstract", jstr "B1"), ("color", jstr "red")]

/-- File B's single object: the concrete `C1` inheriting from `B1`. -/
def c9C1 : Obj :=
  [("type", jstr "overmap_terrain"), ("id", jstr "C1"), ("copy-from", jstr "B1"), ("name", jstr "Cave")]

/-- The game data after loading the two files. -/
def c9Loaded : GData := loadOneJson (loadOneJson [] "fileA" [c9B1]) "fileB" [c9C1]

/-- The game data after both resolution passes. -/
def c9Resolved : GData := (resolveDeps c9Loaded).1

/-- C9: loading the 2-file content database and running the two resolution
passes (abstract chains in pass 1, the rest in pass 2) flattens `C1` to a
record carrying `color = red` from the abstract base and its own
`name = Cave`. -/
theorem end_to_end_abstract_then_concrete :
    Option.map (fun o => (lookupD o "color", lookupD o "name"))
        (lookupD ((lookupD c9Resolved (jstr "overmap_terrain")).getD []) (jstr "C1"))
      = some (some (jstr "red"), some (jstr "Cave")) := by
  decide

/-! ## Claim theorems: grid projector -/

/-- A flattened definition whose `sym` field is explicitly `null`, so the
effective glyph of the matched cell is absent. -/
def c7Terrain : Obj :=
  [("id", jstr "cave"), ("sym", jnull), ("color", jstr "red"), ("name", jstr "Cave")]

/-- A raw cell matched to `c7Terrain`, with no override glyph. -/
def c7Tile : SubmapTile :=
  { x := 0, y := 0, z := 0, omtype := "cave", overmap_terrain := some c7Terrain, osym := none }

/-- A tile map holding only `c7Tile` at `(0, 0, 0)`. -/
def c7Tiles : TileMap := [(0, [(0, c7Tile)])]

set_option maxRecDepth 8192 in
/-- C7: at a matched cell whose effective glyph is absent (`sym` is `null`
and no override glyph is set), `get_overmap` logs a warning but appends both
the ordinary tuple (with a `null` glyph) and the `'?'` placeholder — two
tuples for that one cell — so the row holds `OMT_SZ + 1` tuples instead of
one per column; the placeholder is appended, not substituted. -/
theorem projector_null_sym_appends_two_tuples :
    emitCell c7Tiles 0 0 0
      = ([(jnull, jstr "red", jstr "Cave", jstr "cave"), unknownQTup], true)
    ∧ (emitCell c7Tiles 0 0 0).1.length = 2
    ∧ (overmapRow c7Tiles 0 0).length = OMT_SZ + 1 := by
  refine ⟨by decide, by decide, by decide⟩

/-- C8: a coordinate with no raw cell projects to the fixed `unexplored`
tuple `('#', 'gray', 'Unexplored', None)`; a coordinate whose raw cell has
no attached Definition projects to the `unknown` tuple
`('!', 'gray', 'Unknown', None)` with a warning logged; the two placeholder
tuples are distinguishable. -/
theorem projector_placeholder_policy (tiles : TileMap) (x y : Nat) (z : Int) :
    (getTile tiles x y z = none → emitCell tiles x y z = ([unexploredTup], false))
    ∧ (∀ t : SubmapTile, getTile tiles x y z = some t → t.overmap_terrain = none →
        emitCell tiles x y z = ([unknownBangTup], true))
    ∧ unexploredTup ≠ unknownBangTup := by
  refine ⟨fun hnone => ?_, fun t ht hot => ?_, by decide⟩
  · simp [emitCell, hnone]
  · simp [emitCell, ht, hot]

/-- A raw cell with no attached Definition. -/
def c8Tile : SubmapTile := { x := 0, y := 0, z := 0, omtype := "mystery" }

/-- A tile map holding only the unmatched `c8Tile` at `(0, 0, 0)`. -/
def c8Tiles : TileMap := [(0, [(0, c8Tile)])]

/-- C8 witness: the empty tile map projects `unexplored` at `(0, 0, 0)`; a
map with an unmatched cell projects `unknown` with a warning; the two
tuples differ. -/
theorem projector_placeholder_policy_witness :
    emitCell [] 0 0 0 = ([unexploredTup], false)
    ∧ emitCell c8Tiles 0 0 0 = ([unknownBangTup], true)
    ∧ unexploredTup ≠ unknownBangTup :=
  ⟨(projector_placeholder_policy [] 0 0 0).1 (by decide),
   (projector_placeholder_policy c8Tiles 0 0 0).2.1 c8Tile (by decide) (by decide),
   (projector_placeholder_policy [] 0 0 0).2.2⟩
